import Mathlib

/-!
Verification of the multi-station radar merge pipeline (backend/radar_viz.py,
backend/radar_cache.py, backend/utils.py) against its specification.

Grid cells are modelled as `Option ℚ`: `none` is a masked ("no data") cell of a
numpy masked array, `some v` a cell holding reflectivity value `v`.  Machine
floats are modelled by exact rationals (reals where trigonometry appears).
-/

/-- Constants of merge_radar_data (radar_viz.py lines 140-142). -/
def grid_size : ℕ := 1000

/-- Grid half-extent in meters, 230 km (radar_viz.py line 141). -/
def max_range : ℚ := 230000

/-- Reliable radar range in meters, 80 km (radar_viz.py line 142). -/
def max_reliable_range : ℚ := 80000

/-- Cell-wise model of numpy.ma.where(cond, a, b): pick `a` where the boolean
condition holds, else `b`, propagating each operand's mask. -/
def maWhere (cond : Bool) (a b : Option ℚ) : Option ℚ :=
  if cond then a else b

/-- Cell-wise model of numpy.maximum on masked arrays: the result is masked
where either operand is masked, otherwise the pointwise maximum. -/
def npMaximum (a b : Option ℚ) : Option ℚ :=
  match a, b with
  | some x, some y => some (max x y)
  | _, _ => none

/-- Cell-wise accumulator update of merge_radar_data (radar_viz.py lines
220-228): np.ma.where(acc.mask & ~new.mask, new,
np.ma.where(~acc.mask & ~new.mask, np.maximum(acc, new), acc)).
`Option.isNone` is the mask of a cell. -/
def mergeCell (acc new : Option ℚ) : Option ℚ :=
  maWhere (acc.isNone && new.isSome) new
    (maWhere (acc.isSome && new.isSome) (npMaximum acc new) acc)

/-- A square reflectivity grid of side n, indexed [row][column]; cell (i, j)
sits at planar coordinates (x j, y i) for the meshgrid vectors x, y. -/
abbrev Grid (n : ℕ) := Fin n → Fin n → Option ℚ

/-- The fully masked grid np.ma.masked_all (radar_viz.py line 150). -/
def emptyGrid (n : ℕ) : Grid n := fun _ _ => none

/-- Cell-wise combination of the accumulator with one station's grid
(radar_viz.py lines 220-228). -/
def mergeGrid {n : ℕ} (acc gz : Grid n) : Grid n :=
  fun i j => mergeCell (acc i j) (gz i j)

/-- One accumulator update of merge_radar_data (radar_viz.py lines 216-228):
if the accumulator is completely masked it is replaced by the new grid
directly, otherwise the grids are combined cell-wise. -/
def mergeStep {n : ℕ} (acc gz : Grid n) : Grid n :=
  if acc = emptyGrid n then gz else mergeGrid acc gz

/-- Range mask of radar_viz.py lines 181-185 and 213: cells whose planar
distance from this station's offset (sx, sy) exceeds max_reliable_range are
masked, regardless of the interpolated value.  The source compares
sqrt((X-sx)^2 + (Y-sy)^2) > max_reliable_range; we compare squares, which is
equivalent for the nonnegative range (lemma sqrt_gt_iff_sq_lt below). -/
def applyRangeMask (n : ℕ) (x y : Fin n → ℚ) (sx sy : ℚ) (g : Grid n) : Grid n :=
  fun i j =>
    if max_reliable_range ^ 2 < (x j - sx) ^ 2 + (y i - sy) ^ 2 then none else g i j

/-- The per-station loop of merge_radar_data (radar_viz.py lines 158-228),
with one station's contribution summarised as its planar offset (sx, sy)
paired with its interpolated grid (the output of scipy griddata plus
masked_invalid, an external collaborator, hence carried as data): each
station's grid is range-masked and then folded into the accumulator, which
starts completely masked. -/
def processStations (n : ℕ) (x y : Fin n → ℚ) (stations : List (ℚ × ℚ × Grid n)) :
    Grid n :=
  stations.foldl
    (fun acc s => mergeStep acc (applyRangeMask n x y s.1 s.2.1 s.2.2)) (emptyGrid n)

/-- Faithfulness of the squared-distance comparison: for a nonnegative
threshold r, sqrt(a² + b²) > r iff a² + b² > r². -/
theorem sqrt_gt_iff_sq_lt (a b r : ℝ) (hr : 0 ≤ r) :
    r < Real.sqrt (a ^ 2 + b ^ 2) ↔ r ^ 2 < a ^ 2 + b ^ 2 :=
  Real.lt_sqrt hr

theorem mergeCell_none_left (c : Option ℚ) : mergeCell none c = c := by
  cases c <;> rfl

theorem mergeCell_none_right (c : Option ℚ) : mergeCell c none = c := by
  cases c <;> rfl

theorem mergeCell_some_some (a b : ℚ) :
    mergeCell (some a) (some b) = some (max a b) := rfl

theorem mergeCell_comm (a b : Option ℚ) : mergeCell a b = mergeCell b a := by
  cases a <;> cases b <;> simp [mergeCell, maWhere, npMaximum, max_comm]

theorem mergeCell_assoc (a b c : Option ℚ) :
    mergeCell (mergeCell a b) c = mergeCell a (mergeCell b c) := by
  cases a <;> cases b <;> cases c <;>
    simp [mergeCell, maWhere, npMaximum, max_assoc]

theorem mergeStep_eq_mergeGrid {n : ℕ} (acc gz : Grid n) :
    mergeStep acc gz = mergeGrid acc gz := by
  unfold mergeStep
  split
  · subst acc
    funext i j
    exact (mergeCell_none_left _).symm
  · rfl

theorem mergeGrid_right_comm {n : ℕ} (a g1 g2 : Grid n) :
    mergeGrid (mergeGrid a g1) g2 = mergeGrid (mergeGrid a g2) g1 := by
  funext i j
  show mergeCell (mergeCell _ _) _ = mergeCell (mergeCell _ _) _
  rw [mergeCell_assoc, mergeCell_assoc, mergeCell_comm (g1 i j)]

/-- C1: the cell-wise merge rule of the grid merge engine: an empty
accumulator cell takes the new value when the new cell has data; two data
cells merge to their maximum; an empty new cell leaves the accumulator cell
unchanged (so two empty cells stay empty); and the grid-level combination of
merge_radar_data applies exactly this rule at every cell. -/
theorem c1_merge_cell_rule :
    (∀ v : ℚ, mergeCell none (some v) = some v) ∧
    (∀ a b : ℚ, mergeCell (some a) (some b) = some (max a b)) ∧
    (∀ c : Option ℚ, mergeCell c none = c) ∧
    mergeCell none none = none ∧
    (∀ (n : ℕ) (g1 g2 : Grid n) (i j : Fin n),
      mergeGrid g1 g2 i j = mergeCell (g1 i j) (g2 i j)) := by
  refine ⟨fun v => rfl, fun a b => rfl, mergeCell_none_right, rfl, fun n g1 g2 i j => rfl⟩

/-- C2: grid merge is order-independent: merging any permutation of the
(station offset, interpolated grid) list through the accumulator loop of
merge_radar_data yields an identical accumulator grid (same values and same
set of masked cells, since grids are compared as whole functions). -/
theorem c2_merge_order_independent (n : ℕ) (x y : Fin n → ℚ)
    (l1 l2 : List (ℚ × ℚ × Grid n)) (hp : l1.Perm l2) :
    processStations n x y l1 = processStations n x y l2 := by
  unfold processStations
  haveI : RightCommutative
      (fun (acc : Grid n) (s : ℚ × ℚ × Grid n) =>
        mergeStep acc (applyRangeMask n x y s.1 s.2.1 s.2.2)) := by
    refine ⟨fun b a1 a2 => ?_⟩
    simp only [mergeStep_eq_mergeGrid]
    exact mergeGrid_right_comm _ _ _
  exact hp.foldl_eq _

/-- Witness for C2 at a concrete input: three overlapping single-cell station
grids merged in two different orders give the same accumulator. -/
theorem c2_merge_order_independent_witness :
    processStations 1 (fun _ => 0) (fun _ => 0)
        [(0, 0, fun _ _ => some 10), (0, 0, fun _ _ => some 30), (0, 0, fun _ _ => none)] =
      processStations 1 (fun _ => 0) (fun _ => 0)
        [(0, 0, fun _ _ => none), (0, 0, fun _ _ => some 30), (0, 0, fun _ _ => some 10)] :=
  c2_merge_order_independent 1 (fun _ => 0) (fun _ => 0) _ _ (by decide)

/-- C6: every grid cell farther than max_reliable_range from the station's
planar offset (sx, sy) is masked in that station's grid before merging,
regardless of the interpolation result stored at that cell. -/
theorem c6_per_station_range_mask (n : ℕ) (x y : Fin n → ℚ) (sx sy : ℚ)
    (g : Grid n) (i j : Fin n)
    (hfar : max_reliable_range ^ 2 < (x j - sx) ^ 2 + (y i - sy) ^ 2) :
    applyRangeMask n x y sx sy g i j = none := by
  unfold applyRangeMask
  simp [hfar]

/-- Witness for C6 at a concrete input: a cell 100 km east of the station is
masked even though the interpolated grid holds data there. -/
theorem c6_per_station_range_mask_witness :
    applyRangeMask 1 (fun _ => 100000) (fun _ => 0) 0 0 (fun _ _ => some 42) 0 0 = none :=
  c6_per_station_range_mask 1 (fun _ => 100000) (fun _ => 0) 0 0
    (fun _ _ => some 42) 0 0 (by norm_num [max_reliable_range])

/-- Degrees to radians, np.deg2rad. -/
noncomputable def deg2rad (d : ℝ) : ℝ := d * Real.pi / 180

/-- meters_to_latlon of utils.py lines 30-46: local equirectangular
approximation; returns (latitude, longitude).
delta_lon = x / (111000 * cos(deg2rad(center_lat))), delta_lat = y / 111000. -/
noncomputable def meters_to_latlon (x y center_lat center_lon : ℝ) : ℝ × ℝ :=
  (center_lat + y / 111000, center_lon + x / (111000 * Real.cos (deg2rad center_lat)))

/-- The fixed affine clamp applied to every emitted value (radar_viz.py line
258): max(0, min(50, (dbz + 30) * (50/100))). -/
def normalizeDbz (dbz : ℚ) : ℚ :=
  max 0 (min 50 ((dbz + 30) * (50 / 100)))

/-- An emitted radar point: position is [longitude, latitude] (radar_viz.py
line 261), value the normalized reflectivity. -/
structure RadarPoint where
  position : ℝ × ℝ
  value : ℚ

/-- Point extraction for a single grid cell (radar_viz.py lines 239-264):
masked cells emit nothing; cells with raw dBZ < 5 are skipped; cells farther
than max_reliable_range from the request center are skipped (the source
compares sqrt(X² + Y²) > max_reliable_range, modelled by the equivalent
squared comparison, see sqrt_gt_iff_sq_lt); surviving cells emit the cell's
geographic position and the normalized value. -/
noncomputable def extractCell (center_lat center_lon xm ym : ℚ) (cell : Option ℚ) :
    Option RadarPoint :=
  match cell with
  | none => none
  | some dbz =>
    if dbz < 5 then none
    else if max_reliable_range ^ 2 < xm ^ 2 + ym ^ 2 then none
    else
      let ll := meters_to_latlon (xm : ℝ) (ym : ℝ) (center_lat : ℝ) (center_lon : ℝ)
      some ⟨(ll.2, ll.1), normalizeDbz dbz⟩

/-- The double loop over grid indices of radar_viz.py lines 237-264, emitting
the filtered, normalized points of the merged grid; X[i,j] = x j and
Y[i,j] = y i are the meshgrid coordinate vectors. -/
noncomputable def points_data (n : ℕ) (center_lat center_lon : ℚ)
    (x y : Fin n → ℚ) (g : Grid n) : List RadarPoint :=
  (List.finRange n).flatMap fun i =>
    (List.finRange n).filterMap fun j => extractCell center_lat center_lon (x j) (y i) (g i j)

/-- C9: meters_to_latlon at planar offset (0, 0) returns the center
coordinates exactly, for every center (lat, lon): both offset quotients are
exactly zero, so the sums return the center unperturbed. -/
theorem c9_meters_to_latlon_zero (lat lon : ℝ) :
    meters_to_latlon 0 0 lat lon = (lat, lon) := by
  unfold meters_to_latlon
  simp

/-- C4: emitted values are normalized with the exact affine clamp
clamp(0, 50, (dbz + 30) * 0.5): -30 dBZ maps to 0, 70 dBZ clamps to 50,
0 dBZ maps to 15, the clamp's range is [0, 50] for every input, and every
point emitted by point extraction carries the clamp of some raw dBZ, hence
lies in [0, 50]. -/
theorem c4_normalization_clamp :
    normalizeDbz (-30) = 0 ∧ normalizeDbz 70 = 50 ∧ normalizeDbz 0 = 15 ∧
    (∀ d : ℚ, 0 ≤ normalizeDbz d ∧ normalizeDbz d ≤ 50) ∧
    (∀ (n : ℕ) (clat clon : ℚ) (x y : Fin n → ℚ) (g : Grid n) (p : RadarPoint),
      p ∈ points_data n clat clon x y g →
        ∃ d : ℚ, p.value = normalizeDbz d ∧ 0 ≤ p.value ∧ p.value ≤ 50) := by
  have hbounds : ∀ d : ℚ, 0 ≤ normalizeDbz d ∧ normalizeDbz d ≤ 50 := by
    intro d
    refine ⟨le_max_left _ _, max_le (by norm_num) (min_le_left _ _)⟩
  refine ⟨by norm_num [normalizeDbz], by norm_num [normalizeDbz],
    by norm_num [normalizeDbz], hbounds, ?_⟩
  intro n clat clon x y g p hp
  rcases List.mem_flatMap.mp hp with ⟨i, _, hi⟩
  rcases List.mem_filterMap.mp hi with ⟨j, _, hj⟩
  rcases hcell : g i j with _ | dbz <;> rw [hcell] at hj
  · simp [extractCell] at hj
  · unfold extractCell at hj
    by_cases h1 : dbz < 5
    · simp [h1] at hj
    · by_cases h2 : max_reliable_range ^ 2 < (x j) ^ 2 + (y i) ^ 2
      · simp [h1, h2] at hj
      · simp only [h1, h2, if_false, Option.some_inj] at hj
        exact ⟨dbz, by rw [← hj], by rw [← hj] ; exact (hbounds dbz).1,
          by rw [← hj] ; exact (hbounds dbz).2⟩

/-- Witness for C4 at a concrete input: the single point emitted from a 1×1
grid holding 10 dBZ at the center has a clamp value in [0, 50]. -/
theorem c4_normalization_clamp_witness :
    ∃ d : ℚ,
      (RadarPoint.mk
          ((meters_to_latlon 0 0 39 (-121)).2, (meters_to_latlon 0 0 39 (-121)).1)
          (normalizeDbz 10)).value = normalizeDbz d ∧
      0 ≤ (RadarPoint.mk
          ((meters_to_latlon 0 0 39 (-121)).2, (meters_to_latlon 0 0 39 (-121)).1)
          (normalizeDbz 10)).value ∧
      (RadarPoint.mk
          ((meters_to_latlon 0 0 39 (-121)).2, (meters_to_latlon 0 0 39 (-121)).1)
          (normalizeDbz 10)).value ≤ 50 := by
  refine c4_normalization_clamp.2.2.2.2 1 39 (-121) (fun _ => 0) (fun _ => 0)
    (fun _ _ => some 10) _ ?_
  simp [points_data, List.finRange, extractCell, max_reliable_range]
  norm_num

/-- C5: a grid cell with data is rejected by point extraction iff its raw
reflectivity is strictly below 5 dBZ or its squared distance from the request
center exceeds max_reliable_range squared; in particular 4.9 dBZ is excluded
and 5.0 dBZ (within range) is included, and every in-range cell holding at
least 5 dBZ is emitted into the points list. -/
theorem c5_point_filter :
    (∀ clat clon xm ym d : ℚ,
      extractCell clat clon xm ym (some d) = none ↔
        (d < 5 ∨ max_reliable_range ^ 2 < xm ^ 2 + ym ^ 2)) ∧
    extractCell 39 (-121) 0 0 (some (49 / 10)) = none ∧
    (extractCell 39 (-121) 0 0 (some 5)).isSome = true ∧
    (∀ (n : ℕ) (clat clon : ℚ) (x y : Fin n → ℚ) (g : Grid n) (i j : Fin n) (d : ℚ),
      g i j = some d → ¬ d < 5 → ¬ max_reliable_range ^ 2 < (x j) ^ 2 + (y i) ^ 2 →
      ∃ p ∈ points_data n clat clon x y g, p.value = normalizeDbz d) := by
  have hiff : ∀ clat clon xm ym d : ℚ,
      extractCell clat clon xm ym (some d) = none ↔
        (d < 5 ∨ max_reliable_range ^ 2 < xm ^ 2 + ym ^ 2) := by
    intro clat clon xm ym d
    unfold extractCell
    by_cases h1 : d < 5
    · simp [h1]
    · by_cases h2 : max_reliable_range ^ 2 < xm ^ 2 + ym ^ 2 <;> simp [h1, h2]
  refine ⟨hiff, ?_, ?_, ?_⟩
  · exact (hiff _ _ _ _ _).mpr (Or.inl (by norm_num))
  · unfold extractCell
    norm_num [max_reliable_range]
  · intro n clat clon x y g i j d hg h1 h2
    refine ⟨⟨((meters_to_latlon (x j : ℝ) (y i : ℝ) (clat : ℝ) (clon : ℝ)).2,
        (meters_to_latlon (x j : ℝ) (y i : ℝ) (clat : ℝ) (clon : ℝ)).1),
        normalizeDbz d⟩, ?_, rfl⟩
    refine List.mem_flatMap.mpr ⟨i, List.mem_finRange i, ?_⟩
    refine List.mem_filterMap.mpr ⟨j, List.mem_finRange j, ?_⟩
    rw [hg]
    unfold extractCell
    simp only [h1, h2, if_false]

/-- Witness for C5 at a concrete input: a 1×1 grid holding 10 dBZ at the
center emits a point with the clamp of 10. -/
theorem c5_point_filter_witness :
    ∃ p ∈ points_data 1 39 (-121) (fun _ => 0) (fun _ => 0) (fun _ _ => some 10),
      p.value = normalizeDbz 10 :=
  c5_point_filter.2.2.2 1 39 (-121) (fun _ => 0) (fun _ => 0) (fun _ _ => some 10)
    0 0 10 rfl (by norm_num) (by norm_num [max_reliable_range])

/-- One cell of a masked reflectivity array as numpy.ma holds it in memory:
the underlying data value together with the mask flag (true = masked, "no
data").  raw_to_masked_float (radar_viz.py lines 38-46) masks raw zeros but
the scaled value remains in the data buffer, so a masked cell still carries
an underlying data value. -/
structure MaskedCell where
  data : ℚ
  mask : Bool
deriving DecidableEq

/-- A polar scan as fetched and cached: the tuple (ref, rng, az) of
radar_viz.py / radar_cache.py.  ref is the masked reflectivity array. -/
structure PolarScan where
  ref : List (List MaskedCell)
  rng : List ℚ
  az : List ℚ
deriving DecidableEq

/-- A station dict as passed to merge_radar_data in station_positions
(generate_plot_from_center's station_info entries). -/
structure StationInfo where
  id : String
  lat : ℚ
  lon : ℚ
  distance : ℚ
  timestamp : String
deriving DecidableEq

/-- Top level of merge_radar_data (radar_viz.py lines 152-155): with an empty
scan list, or scan and station-position lists of different lengths, it
returns the empty point list at once; otherwise it runs the per-station
processing and point extraction, carried here as the continuation `rest`
(its body is the processStations / points_data machinery above). -/
def merge_radar_data {α : Type} (rest : List PolarScan → List StationInfo → List α)
    (radar_data_list : List PolarScan) (station_positions : List StationInfo) :
    List α :=
  if radar_data_list = [] ∨ radar_data_list.length ≠ station_positions.length then []
  else rest radar_data_list station_positions

/-- C7: with an empty scan list, or a scan count different from the station
count, merge_radar_data returns the empty point list immediately (the model
is a total function, so no error is raised). -/
theorem c7_empty_or_mismatched_input :
    (∀ (α : Type) (rest : List PolarScan → List StationInfo → List α)
        (s : List StationInfo), merge_radar_data rest [] s = []) ∧
    (∀ (α : Type) (rest : List PolarScan → List StationInfo → List α)
        (l : List PolarScan) (s : List StationInfo),
      l.length ≠ s.length → merge_radar_data rest l s = []) := by
  constructor
  · intro α rest s
    simp [merge_radar_data]
  · intro α rest l s h
    simp [merge_radar_data, h]

/-- Witness for C7 at a concrete input: one scan against zero station
positions yields the empty point list. -/
theorem c7_empty_or_mismatched_input_witness :
    merge_radar_data (fun _ _ => ([] : List ℕ)) [PolarScan.mk [] [] []] [] = [] :=
  c7_empty_or_mismatched_input.2 ℕ (fun _ _ => []) [PolarScan.mk [] [] []] []
    (by simp)

/-- State of RadarCache (radar_cache.py): the JSON index mapping a composite
cache key to its metadata entry, and the on-disk npz blobs mapping the same
key to the stored arrays.  A blob holds what np.savez actually wrote: the
npy format records only dtype, shape and the raw data buffer, so the mask of
a MaskedArray is not part of the blob (see savezScan below). -/
structure CacheState where
  index : String → Option (String × String × String)
  files : String → Option PolarScan

/-- RadarCache.get_cache_key (radar_cache.py lines 36-38):
f-string station_id _ date_str _ time_str joined with underscores. -/
def get_cache_key (station_id date_str time_str : String) : String :=
  station_id ++ "_" ++ date_str ++ "_" ++ time_str

/-- A fresh cache: empty index, no blobs. -/
def emptyCache : CacheState := ⟨fun _ => none, fun _ => none⟩

/-- What np.savez (radar_cache.py line 88) writes for the scan tuple and
np.load later returns: the npy format stores only dtype, shape and the raw
data buffer of each array, so the reflectivity's mask is dropped — the blob
read back is a plain ndarray, i.e. the same data with every mask flag
cleared.  (Older numpy instead raises in MaskedArray.tofile; the except at
radar_cache.py line 99 would swallow that and leave the cache unchanged.
We model the current behavior, the silent mask drop.) -/
def savezScan (scan : PolarScan) : PolarScan :=
  { ref := scan.ref.map fun row => row.map fun c => MaskedCell.mk c.data false,
    rng := scan.rng,
    az := scan.az }

/-- RadarCache.cache_radar_data (radar_cache.py lines 72-100): write the blob
under the composite key — what lands on disk is the mask-stripped savez
output, not the in-memory masked scan — then record the key in the index. -/
def cache_radar_data (s : CacheState) (station_id date_str time_str : String)
    (scan : PolarScan) : CacheState :=
  let key := get_cache_key station_id date_str time_str
  { files := fun k => if k = key then some (savezScan scan) else s.files k,
    index := fun k => if k = key then some (station_id, date_str, time_str)
      else s.index k }

/-- RadarCache.get_cached_data (radar_cache.py lines 40-70): a key absent from
the index is a miss; an indexed key whose blob is missing repairs the index
and is a miss; otherwise the stored scan is returned.  Returns the result
together with the (possibly repaired) cache state; the model is total, so no
path raises. -/
def get_cached_data (s : CacheState) (station_id date_str time_str : String) :
    Option PolarScan × CacheState :=
  let key := get_cache_key station_id date_str time_str
  match s.index key with
  | none => (none, s)
  | some _ =>
    match s.files key with
    | none => (none, { s with index := fun k => if k = key then none else s.index k })
    | some scan => (some scan, s)

/-- The cache state after a sequence of put operations, starting empty. -/
def applyPuts (puts : List (String × String × String × PolarScan)) : CacheState :=
  puts.foldl (fun st p => cache_radar_data st p.1 p.2.1 p.2.2.1 p.2.2.2) emptyCache

/-- Counterexample to C3 as stated, in both halves.  Round trip: a scan whose
reflectivity has a masked cell (data 7, mask set) comes back from put-then-get
with the mask cleared — the npy blob holds only the data buffer — so the
returned PolarScan is not byte-identical to the one stored.  Absent keys: the
composite key joins the components with underscores, so the distinct triples
(A_B, C, D) and (A, B_C, D) share the composite key A_B_C_D, and after
storing under the first a get with the second — a key never stored — returns
the stored blob rather than absent. -/
theorem c3_cache_roundtrip_counterexample :
    (get_cached_data
        (cache_radar_data emptyCache ("KDAX") ("20240220") ("0559")
          (PolarScan.mk [[MaskedCell.mk 7 true]] [2] [3]))
        ("KDAX") ("20240220") ("0559")).1 =
      some (PolarScan.mk [[MaskedCell.mk 7 false]] [2] [3]) ∧
    (get_cached_data
        (cache_radar_data emptyCache ("KDAX") ("20240220") ("0559")
          (PolarScan.mk [[MaskedCell.mk 7 true]] [2] [3]))
        ("KDAX") ("20240220") ("0559")).1 ≠
      some (PolarScan.mk [[MaskedCell.mk 7 true]] [2] [3]) ∧
    (get_cached_data
        (cache_radar_data emptyCache ("A_B") ("C") ("D")
          (PolarScan.mk [] [] []))
        ("A") ("B_C") ("D")).1 = some (PolarScan.mk [] [] []) ∧
    get_cache_key ("A") ("B_C") ("D") = get_cache_key ("A_B") ("C") ("D") ∧
    (("A", "B_C", "D") : String × String × String) ≠ ("A_B", "C", "D") := by
  refine ⟨by decide, by decide, by decide, by decide, by decide⟩

/-- C3 amended: put followed by get with the identical key returns the
stored scan with its reflectivity mask discarded — underlying reflectivity
data, range bins and azimuths intact, every mask flag cleared, since the npy
blob holds no mask — hence byte-identical exactly when no reflectivity cell
was masked; the model is total, so get never raises; and a get whose
composite key differs from that of every put performed on a fresh cache
returns absent.  The never-stored clause is restricted to keys whose
composite string differs from every stored key's composite string: distinct
triples can collide when a component embeds an underscore (see the
counterexample), though the documented formats — alphanumeric station ids,
YYYYMMDD dates, HHMM times — never do. -/
theorem c3_cache_roundtrip_amended :
    (∀ (s : CacheState) (sid d t : String) (scan : PolarScan),
      (get_cached_data (cache_radar_data s sid d t scan) sid d t).1 =
        some (savezScan scan)) ∧
    (∀ scan : PolarScan, (∀ row ∈ scan.ref, ∀ c ∈ row, c.mask = false) →
      savezScan scan = scan) ∧
    (∀ (puts : List (String × String × String × PolarScan)) (sid d t : String),
      (∀ p ∈ puts, get_cache_key p.1 p.2.1 p.2.2.1 ≠ get_cache_key sid d t) →
      (get_cached_data (applyPuts puts) sid d t).1 = none) := by
  refine ⟨?_, ?_, ?_⟩
  · intro s sid d t scan
    simp [get_cached_data, cache_radar_data]
  · intro scan hm
    cases scan with
    | mk ref rng az =>
      simp only [savezScan, PolarScan.mk.injEq, and_true]
      have hrow : ∀ row ∈ ref, (fun r => r.map fun c => MaskedCell.mk c.data false) row
          = id row := by
        intro row hr
        have hc : ∀ c ∈ row, (fun c => MaskedCell.mk c.data false) c = id c := by
          intro c hcm
          have := hm row hr c hcm
          cases c with
          | mk dv mv =>
            simp only at this
            simp [this]
        simp only [id]
        rw [List.map_congr_left hc, List.map_id]
      rw [List.map_congr_left hrow, List.map_id]
  · intro puts sid d t hk
    have hidx : ∀ (l : List (String × String × String × PolarScan)) (s : CacheState),
        (∀ p ∈ l, get_cache_key p.1 p.2.1 p.2.2.1 ≠ get_cache_key sid d t) →
        s.index (get_cache_key sid d t) = none →
        (l.foldl (fun st p => cache_radar_data st p.1 p.2.1 p.2.2.1 p.2.2.2) s).index
          (get_cache_key sid d t) = none := by
      intro l
      induction l with
      | nil => intro s _ hs; exact hs
      | cons p rest ih =>
        intro s hl hs
        refine ih _ (fun q hq => hl q (List.mem_cons_of_mem p hq)) ?_
        simp only [cache_radar_data]
        rw [if_neg]
        · exact hs
        · exact fun h => hl p (List.mem_cons_self p rest) h.symm
    have h0 : (applyPuts puts).index (get_cache_key sid d t) = none :=
      hidx puts emptyCache hk rfl
    simp [get_cached_data, h0]

/-- Witness for C3 amended at a concrete input: a round trip through a fresh
cache returns the stored scan mask-stripped, a fully unmasked scan is
untouched by the mask strip, and a get under a non-colliding key after one
unrelated put returns absent. -/
theorem c3_cache_roundtrip_amended_witness :
    (get_cached_data
        (cache_radar_data emptyCache ("KDAX") ("20240220") ("0559")
          (PolarScan.mk [[MaskedCell.mk 1 false, MaskedCell.mk 0 true]] [250] [0]))
        ("KDAX") ("20240220") ("0559")).1 =
      some (savezScan
        (PolarScan.mk [[MaskedCell.mk 1 false, MaskedCell.mk 0 true]] [250] [0])) ∧
    savezScan (PolarScan.mk [[MaskedCell.mk 1 false]] [2] [3]) =
      PolarScan.mk [[MaskedCell.mk 1 false]] [2] [3] ∧
    (get_cached_data
        (applyPuts [(("KDAX"), ("20240220"), ("0559"), PolarScan.mk [] [] [])])
        ("KMUX") ("20240220") ("0601")).1 = none := by
  refine ⟨?_, ?_, ?_⟩
  · exact c3_cache_roundtrip_amended.1 emptyCache ("KDAX") ("20240220") ("0559")
      (PolarScan.mk [[MaskedCell.mk 1 false, MaskedCell.mk 0 true]] [250] [0])
  · exact c3_cache_roundtrip_amended.2.1
      (PolarScan.mk [[MaskedCell.mk 1 false]] [2] [3]) (by decide)
  · exact c3_cache_roundtrip_amended.2.2
      [(("KDAX"), ("20240220"), ("0559"), PolarScan.mk [] [] [])]
      ("KMUX") ("20240220") ("0601") (by decide)

/-- A station record returned by get_radars_within_distance (radar_viz.py
lines 70-76): id, distance from center, and position. -/
structure StationRec where
  id : String
  lat : ℚ
  lon : ℚ
  distance : ℚ
deriving DecidableEq

/-- One entry of the response's stations array (radar_viz.py lines 326-332);
position is [lon, lat]. -/
structure RespStation where
  id : String
  position : ℚ × ℚ
  distance : ℚ
  range_km : ℚ
  timestamp : String
deriving DecidableEq

/-- The payload of generate_plot_from_center (radar_viz.py lines 323-333);
center is [lon, lat]. -/
structure Response (α : Type) where
  points : List α
  center : ℚ × ℚ
  stations : List RespStation

/-- Timestamp display format of radar_viz.py line 296:
time_str[:2] : time_str[2:] followed by UTC. -/
def formatTimestamp (time_str : String) : String :=
  (time_str.take 2) ++ ":" ++ (time_str.drop 2) ++ " UTC"

/-- The station_timestamps dict of radar_viz.py lines 290-300: the formatted
timestamp for each station whose get_radar_timestamp call (modelled by the
collaborator map `timestamps`, yielding (date, time) or absent) succeeded. -/
def station_timestamps (timestamps : String → Option (String × String))
    (sid : String) : Option String :=
  (timestamps sid).map fun dt => formatTimestamp dt.2

/-- Result of get_radar_data for one station, collapsed to the scan it hands
the caller: a raised error (caught by the loop) and a None return alike
contribute nothing; only .ok (some scan) contributes. -/
def okScan (r : Except Unit (Option PolarScan)) : Option PolarScan :=
  match r with
  | .ok (some scan) => some scan
  | _ => none

/-- One iteration of the fetch loop of generate_plot_from_center (radar_viz.py
lines 306-318): a fetch that raises is caught and skipped, a None result is
skipped, and a scan appends to both radar_data_list and station_info, the
latter with the formatted timestamp or the N/A default. -/
def collectStep (fetch : String → Except Unit (Option PolarScan))
    (tsMap : String → Option String)
    (acc : List PolarScan × List StationInfo) (st : StationRec) :
    List PolarScan × List StationInfo :=
  match fetch st.id with
  | .error _ => acc
  | .ok none => acc
  | .ok (some scan) =>
    (acc.1 ++ [scan],
     acc.2 ++ [StationInfo.mk st.id st.lat st.lon st.distance
       ((tsMap st.id).getD ("N/A"))])

/-- The fetch loop of generate_plot_from_center over all selected stations,
accumulating radar_data_list and station_info from empty. -/
def collectStationData (fetch : String → Except Unit (Option PolarScan))
    (tsMap : String → Option String) (stations : List StationRec) :
    List PolarScan × List StationInfo :=
  stations.foldl (collectStep fetch tsMap) ([], [])

/-- generate_plot_from_center (radar_viz.py lines 279-341): run the fetch
loop, merge the collected scans (merge_radar_data with interior `rest`), and
assemble the response; each listed station carries the request's
max_distance_km as range_km. -/
def generate_plot_from_center {α : Type}
    (rest : List PolarScan → List StationInfo → List α)
    (fetch : String → Except Unit (Option PolarScan))
    (timestamps : String → Option (String × String))
    (stations : List StationRec) (center_lat center_lon max_distance_km : ℚ) :
    Response α :=
  let tsMap := station_timestamps timestamps
  let collected := collectStationData fetch tsMap stations
  { points := merge_radar_data rest collected.1 collected.2,
    center := (center_lon, center_lat),
    stations := collected.2.map fun st =>
      RespStation.mk st.id (st.lon, st.lat) st.distance max_distance_km st.timestamp }

theorem collectStationData_eq (fetch : String → Except Unit (Option PolarScan))
    (tsMap : String → Option String) (stations : List StationRec) :
    collectStationData fetch tsMap stations =
      (stations.filterMap fun st => okScan (fetch st.id),
       stations.filterMap fun st => (okScan (fetch st.id)).map fun _ =>
         StationInfo.mk st.id st.lat st.lon st.distance
           ((tsMap st.id).getD ("N/A"))) := by
  have aux : ∀ (l : List StationRec) (a : List PolarScan) (b : List StationInfo),
      l.foldl (collectStep fetch tsMap) (a, b) =
        (a ++ l.filterMap (fun st => okScan (fetch st.id)),
         b ++ l.filterMap (fun st => (okScan (fetch st.id)).map fun _ =>
           StationInfo.mk st.id st.lat st.lon st.distance
             ((tsMap st.id).getD ("N/A")))) := by
    intro l
    induction l with
    | nil => intro a b; simp
    | cons st rest ih =>
      intro a b
      rcases h : fetch st.id with e | os
      · simp only [List.foldl_cons, collectStep, h]
        rw [ih]
        simp [okScan, h]
      · rcases os with _ | scan
        · simp only [List.foldl_cons, collectStep, h]
          rw [ih]
          simp [okScan, h]
        · simp only [List.foldl_cons, collectStep, h]
          rw [ih]
          simp [okScan, h]
  unfold collectStationData
  rw [aux]
  simp

/-- C8: a single station's fetch failure is contained: the merge receives
exactly the scans and station entries of the stations whose fetch returned
data (in input order), and no station whose fetch raised appears in the
response's stations array; the model is a total function, so the request as
a whole never fails. -/
theorem c8_fetch_failure_contained {α : Type}
    (rest : List PolarScan → List StationInfo → List α)
    (fetch : String → Except Unit (Option PolarScan))
    (timestamps : String → Option (String × String))
    (stations : List StationRec) (clat clon mdk : ℚ) :
    ((generate_plot_from_center rest fetch timestamps stations clat clon mdk).points =
      merge_radar_data rest
        (stations.filterMap fun st => okScan (fetch st.id))
        (stations.filterMap fun st => (okScan (fetch st.id)).map fun _ =>
          StationInfo.mk st.id st.lat st.lon st.distance
            ((station_timestamps timestamps st.id).getD ("N/A")))) ∧
    (∀ st ∈ stations, (∃ e, fetch st.id = .error e) →
      ∀ rs ∈ (generate_plot_from_center rest fetch timestamps stations
          clat clon mdk).stations, rs.id ≠ st.id) := by
  constructor
  · simp only [generate_plot_from_center]
    rw [collectStationData_eq]
  · intro st hst herr rs hrs
    obtain ⟨e, he⟩ := herr
    simp only [generate_plot_from_center] at hrs
    rw [collectStationData_eq] at hrs
    simp only at hrs
    obtain ⟨si, hsi, hrs_eq⟩ := List.mem_map.mp hrs
    obtain ⟨st2, hst2, hf2⟩ := List.mem_filterMap.mp hsi
    obtain ⟨scan2, hscan2, hsi_eq⟩ := Option.map_eq_some'.mp hf2
    intro hid
    have hids : st2.id = st.id := by
      have : si.id = st2.id := by rw [← hsi_eq]
      rw [← hrs_eq] at hid
      simp only at hid
      rw [this] at hid
      exact hid
    rw [hids, he] at hscan2
    simp [okScan] at hscan2

/-- Witness for C8 at a concrete input: with station KAAA's fetch raising and
KBBB's succeeding, KBBB's entry is in the response and carries an id
different from KAAA's. -/
theorem c8_fetch_failure_contained_witness :
    RespStation.mk ("KBBB") (5, 4) 6 230 ("N/A") ∈
      (generate_plot_from_center (fun _ _ => ([] : List ℕ))
        (fun sid => if sid = ("KAAA") then Except.error ()
          else Except.ok (some (PolarScan.mk [] [] [])))
        (fun _ => none)
        [StationRec.mk ("KAAA") 1 2 3, StationRec.mk ("KBBB") 4 5 6]
        39 (-121) 230).stations ∧
    (RespStation.mk ("KBBB") (5, 4) 6 230 ("N/A")).id ≠ ("KAAA") := by
  constructor
  · decide
  · exact (c8_fetch_failure_contained (fun _ _ => ([] : List ℕ))
      (fun sid => if sid = ("KAAA") then Except.error ()
        else Except.ok (some (PolarScan.mk [] [] [])))
      (fun _ => none)
      [StationRec.mk ("KAAA") 1 2 3, StationRec.mk ("KBBB") 4 5 6]
      39 (-121) 230).2
      (StationRec.mk ("KAAA") 1 2 3) (by decide) ⟨(), rfl⟩
      (RespStation.mk ("KBBB") (5, 4) 6 230 ("N/A")) (by decide)

/-- C10: the stations array of the response contains exactly the selected
stations whose fetch returned data, in input order — a station whose fetch
raised or returned no data appears nowhere — and every listed entry carries
the request's max_distance_km as its range_km. -/
theorem c10_response_stations {α : Type}
    (rest : List PolarScan → List StationInfo → List α)
    (fetch : String → Except Unit (Option PolarScan))
    (timestamps : String → Option (String × String))
    (stations : List StationRec) (clat clon mdk : ℚ) :
    ((generate_plot_from_center rest fetch timestamps stations clat clon mdk).stations =
      stations.filterMap fun st => (okScan (fetch st.id)).map fun _ =>
        RespStation.mk st.id (st.lon, st.lat) st.distance mdk
          ((station_timestamps timestamps st.id).getD ("N/A"))) ∧
    (∀ rs ∈ (generate_plot_from_center rest fetch timestamps stations
        clat clon mdk).stations, rs.range_km = mdk) ∧
    (∀ st ∈ stations, okScan (fetch st.id) = none →
      ∀ rs ∈ (generate_plot_from_center rest fetch timestamps stations
          clat clon mdk).stations, rs.id ≠ st.id) := by
  have hmain :
      (generate_plot_from_center rest fetch timestamps stations clat clon mdk).stations =
        stations.filterMap fun st => (okScan (fetch st.id)).map fun _ =>
          RespStation.mk st.id (st.lon, st.lat) st.distance mdk
            ((station_timestamps timestamps st.id).getD ("N/A")) := by
    simp only [generate_plot_from_center]
    rw [collectStationData_eq]
    simp only [List.map_filterMap, Option.map_map]
    rfl
  refine ⟨hmain, ?_, ?_⟩
  · intro rs hrs
    rw [hmain] at hrs
    obtain ⟨st2, _, hf⟩ := List.mem_filterMap.mp hrs
    obtain ⟨scan2, _, hrs_eq⟩ := Option.map_eq_some'.mp hf
    rw [← hrs_eq]
  · intro st hst hnone rs hrs
    rw [hmain] at hrs
    obtain ⟨st2, hst2, hf⟩ := List.mem_filterMap.mp hrs
    obtain ⟨scan2, hscan2, hrs_eq⟩ := Option.map_eq_some'.mp hf
    intro hid
    have hids : st2.id = st.id := by
      rw [← hrs_eq] at hid
      exact hid
    rw [hids, hnone] at hscan2
    exact Option.noConfusion hscan2

/-- Witness for C10 at a concrete input: with station KCCC returning no data
and KDDD returning a scan, the response lists exactly KDDD with the request
radius 230 as range_km and the formatted timestamp, and KCCC appears
nowhere. -/
theorem c10_response_stations_witness :
    ((generate_plot_from_center (fun _ _ => ([] : List ℕ))
        (fun sid => if sid = ("KCCC") then Except.ok none
          else Except.ok (some (PolarScan.mk [] [] [])))
        (fun sid => if sid = ("KDDD") then some (("20240220"), ("0730")) else none)
        [StationRec.mk ("KCCC") 7 8 9, StationRec.mk ("KDDD") 10 11 12]
        40 (-100) 230).stations =
      [RespStation.mk ("KDDD") (11, 10) 12 230 ("07:30 UTC")]) ∧
    (RespStation.mk ("KDDD") (11, 10) 12 230 ("07:30 UTC")).range_km = 230 := by
  constructor
  · decide
  · exact (c10_response_stations (fun _ _ => ([] : List ℕ))
      (fun sid => if sid = ("KCCC") then Except.ok none
        else Except.ok (some (PolarScan.mk [] [] [])))
      (fun sid => if sid = ("KDDD") then some (("20240220"), ("0730")) else none)
      [StationRec.mk ("KCCC") 7 8 9, StationRec.mk ("KDDD") 10 11 12]
      40 (-100) 230).2.1
      (RespStation.mk ("KDDD") (11, 10) 12 230 ("07:30 UTC")) (by decide)
